import Mathlib

/-!
# Verification of ztfquery's download-and-integrity pipeline (`ztfquery/io.py`)

Shallow embedding of the cache-presence decision (`get_file`), the integrity
tools (`calculate_hash`, `calculate_and_write_hash`, `read_hash`, `compare_hash`,
`hash_for_file_exists`, `_is_fitsfile_bad_`, `_test_file_`), the remediator
(`_fileissue_`), the fetcher (`download_single_url`) and the batch checker
(`test_files`, `run_full_filecheck`).

The local filesystem is modelled as an association list from path to an
abstract file content.  File content records the raw bytes together with the
outcome of the two format-aware parses the code performs (`fits.getdata` and a
text read): a parse on an existing file fails exactly when the corresponding
flag is false, and any parse on a missing file raises `FileNotFoundError`,
matching the Python semantics.  Network and filesystem side effects are made
observable through an explicit trace of actions.
-/

namespace Ztf

/-- Python exceptions raised by the code under study. -/
inductive PyErr where
  | fileNotFoundError
  | nameError
  | valueError (msg : String)
deriving DecidableEq

/-- Abstract content of a file on disk: its raw bytes, whether astropy's
`fits.getdata` succeeds on it, and whether a plain text read/decode succeeds. -/
structure FileData where
  bytes : List Nat
  fitsOk : Bool
  textOk : Bool
deriving DecidableEq

/-- The local filesystem: association list from absolute path to content.
The head entry for a path shadows later ones. -/
abbrev FS := List (String × FileData)

/-- First entry stored under path `p`, if any. -/
def FS.lookupFile : FS → String → Option FileData
  | [], _ => none
  | (q, d) :: rest, p => if q = p then some d else FS.lookupFile rest p

/-- Python `os.path.isfile`. -/
def FS.isfile (fs : FS) (p : String) : Bool :=
  (fs.lookupFile p).isSome

/-- Write (create or overwrite) the file at path `p`. -/
def FS.setFile (fs : FS) (p : String) (d : FileData) : FS :=
  (p, d) :: fs.filter (fun e => e.1 != p)

/-- Delete every entry at path `p`. -/
def FS.removeFile (fs : FS) (p : String) : FS :=
  fs.filter (fun e => e.1 != p)

/-- Python `os.remove`: deletes the file, raising `FileNotFoundError` when the
path does not exist. -/
def os_remove (fs : FS) (p : String) : Except PyErr FS :=
  if fs.isfile p then .ok (fs.removeFile p) else .error .fileNotFoundError

/-- Test whether `pat` occurs at the start of `s` (character lists). -/
def charsStart : List Char → List Char → Bool
  | _, [] => true
  | [], _ :: _ => false
  | c :: cs, p :: ps => c == p && charsStart cs ps

/-- Test whether `pat` occurs somewhere in `s` (character lists). -/
def charsHasSub : List Char → List Char → Bool
  | [], pat => pat.isEmpty
  | c :: cs, pat => charsStart (c :: cs) pat || charsHasSub cs pat

/-- Python's substring test `pat in s`. -/
def strHasSub (s pat : String) : Bool :=
  charsHasSub s.toList pat.toList

/-- Python's `s.startswith(pat)`. -/
def strStartsW (s pat : String) : Bool :=
  charsStart s.toList pat.toList

/-- Python's `s.endswith(pat)`. -/
def strEndsW (s pat : String) : Bool :=
  charsStart s.toList.reverse pat.toList.reverse

/-!
## Hash tools (io.py lines 1188-1223)
-/

/-- Modelled from the spec: `hashlib.md5` is an external library function; the
spec requires only "a streaming content hash ... must produce identical output
for identical byte content regardless of chunk size".  The md5 state is the
sequence of absorbed bytes and the digest a concrete mixing function of it, so
the digest is by construction a pure function of the absorbed byte sequence. -/
def md5_hexdigest (absorbed : List Nat) : List Nat :=
  [absorbed.foldl (fun acc b => (acc * 131 + b % 256 + 1) % (2 ^ 128)) 0,
   absorbed.length]

/-- Helper for `chunksOf`: structural recursion on a fuel that bounds the
number of reads (the list's length always suffices). -/
def chunksOfAux (n : Nat) : Nat → List α → List (List α)
  | _, [] => []
  | 0, _ :: _ => []
  | fuel + 1, x :: xs => (x :: xs.take (n - 1)) :: chunksOfAux n fuel (xs.drop (n - 1))

/-- Split a list into chunks of `n` bytes, the way repeated `f.read(n)` calls
deliver a file's content (every chunk but the last has exactly `n` elements,
and the iteration stops on the empty read). -/
def chunksOf (n : Nat) (l : List α) : List (List α) :=
  chunksOfAux n l.length l

theorem chunksOfAux_flatten (n fuel : Nat) (l : List α) (h : l.length ≤ fuel) :
    (chunksOfAux n fuel l).flatten = l := by
  induction fuel generalizing l with
  | zero =>
    cases l with
    | nil => rfl
    | cons x xs => simp at h
  | succ fuel ih =>
    cases l with
    | nil => rfl
    | cons x xs =>
      have hd : (xs.drop (n - 1)).length ≤ fuel := by
        simp only [List.length_drop]
        simp only [List.length_cons] at h
        omega
      simp [chunksOfAux, ih _ hd]

/-- Reassembling the chunks of repeated reads recovers the file's byte
sequence: the digest absorbed chunkwise is the digest of the content. -/
theorem chunksOf_flatten (n : Nat) (l : List α) : (chunksOf n l).flatten = l :=
  chunksOfAux_flatten n l.length l (Nat.le_refl _)

/-- Embeds `calculate_hash` (io.py:1188): open the file in binary mode, feed it to the
md5 state in 4096-byte chunks, and return the digest.  Opening a missing file
raises `FileNotFoundError`. -/
def calculate_hash (fs : FS) (fname : String) : Except PyErr (List Nat) :=
  match fs.lookupFile fname with
  | none => .error .fileNotFoundError
  | some fd => .ok (md5_hexdigest (chunksOf 4096 fd.bytes).flatten)

/-- Embeds `calculate_and_write_hash` (io.py:1198): compute the digest of `fname` and
write it to the sidecar file `fname + ".md5"`.  The sidecar is a plain text
file (readable as text, not as FITS). -/
def calculate_and_write_hash (fs : FS) (fname : String) : Except PyErr FS :=
  match calculate_hash fs fname with
  | .error e => .error e
  | .ok digest => .ok (fs.setFile (fname ++ ".md5") ⟨digest, false, true⟩)

/-- Embeds `read_hash` (io.py:1205): read the digest stored in `fname + ".md5"`. -/
def read_hash (fs : FS) (fname : String) : Except PyErr (List Nat) :=
  match fs.lookupFile (fname ++ ".md5") with
  | none => .error .fileNotFoundError
  | some fd => .ok fd.bytes

/-- Embeds `compare_hash` (io.py:1211).  Its first statement is
`f_hash = open(hash_fname, "r")` where `hash_fname` is an undefined name (the
function's parameter is `fname`), so every call raises `NameError` before any
read or comparison takes place. -/
def compare_hash (_fs : FS) (_fname : String) : Except PyErr Bool :=
  .error .nameError

/-- Embeds `hash_for_file_exists` (io.py:1221): `os.path.exists(fname + ".md5")`. -/
def hash_for_file_exists (fs : FS) (fname : String) : Bool :=
  fs.isfile (fname ++ ".md5")

/-!
## Basic filesystem lemmas
-/

theorem FS.lookupFile_filter_ne (fs : FS) (p q : String) (h : q ≠ p) :
    FS.lookupFile (fs.filter (fun e => e.1 != p)) q = fs.lookupFile q := by
  induction fs with
  | nil => rfl
  | cons e rest ih =>
    by_cases he : e.1 = p
    · simp [List.filter_cons, he, FS.lookupFile, Ne.symm h, ih]
    · simp [List.filter_cons, he, FS.lookupFile]
      by_cases heq : e.1 = q
      · simp [heq]
      · simp [heq, ih]

theorem FS.lookupFile_setFile_self (fs : FS) (p : String) (d : FileData) :
    (fs.setFile p d).lookupFile p = some d := by
  simp [FS.setFile, FS.lookupFile]

theorem FS.lookupFile_setFile_ne (fs : FS) (p q : String) (d : FileData) (h : q ≠ p) :
    (fs.setFile p d).lookupFile q = fs.lookupFile q := by
  simp [FS.setFile, FS.lookupFile, Ne.symm h]
  exact FS.lookupFile_filter_ne fs p q h

theorem FS.lookupFile_removeFile_self (fs : FS) (p : String) :
    (fs.removeFile p).lookupFile p = none := by
  induction fs with
  | nil => rfl
  | cons e rest ih =>
    by_cases he : e.1 = p
    · simpa [FS.removeFile, List.filter_cons, he] using ih
    · simpa [FS.removeFile, List.filter_cons, he, FS.lookupFile] using ih

theorem FS.lookupFile_removeFile_ne (fs : FS) (p q : String) (h : q ≠ p) :
    (fs.removeFile p).lookupFile q = fs.lookupFile q :=
  FS.lookupFile_filter_ne fs p q h

/-- A path never equals itself extended with the `".md5"` sidecar suffix. -/
theorem md5_suffix_ne (s : String) : s ++ ".md5" ≠ s := by
  intro h
  have hlen : (s ++ ".md5").length = s.length := congrArg String.length h
  rw [String.length_append] at hlen
  have h4 : (".md5" : String).length = 4 := rfl
  omega

/-!
## Observable actions

Every network access, deletion, write, parse attempt, and hash computation is
recorded in a trace, so that "no network call is issued" and "without
re-parsing or recomputing the hash" are statable.
-/

/-- One observable side effect of the pipeline. -/
inductive Action where
  | sleep (t : Nat)
  | netLogin
  | netRequest (url : String)
  | removedFile (p : String)
  | wroteFile (p : String)
  | parsedFits (p : String)
  | parsedText (p : String)
  | hashedFile (p : String)
deriving DecidableEq

/-- Is the action a network access (login or data request)? -/
def Action.isNet : Action → Bool
  | .netLogin => true
  | .netRequest _ => true
  | _ => false

/-- The remote archive: association list from url to (HTTP status, body).
Urls not present answer 404 with an empty body. -/
abbrev Net := List (String × Nat × FileData)

/-- Response of the remote archive for a given url. -/
def Net.response : Net → String → Nat × FileData
  | [], _ => (404, ⟨[], false, false⟩)
  | (u, r) :: rest, url => if u = url then r else Net.response rest url

/-- Cookie value attached to requests; `noCookies` is the `"no_cookies"`
sentinel the code compares against. -/
inductive Cookies where
  | noCookies
  | jar
deriving DecidableEq

/-- Embeds `get_cookie(session=session, update=False)` (io.py:855): when the given
session already holds cookies, return immediately (Python returns `None`)
without touching the network; otherwise perform the login request(s) — one
attaching cookies to the session when a session is given, plus the final
`requests.get` whose cookies are returned.  The session is modelled by whether
it already holds cookies. -/
def get_cookie_noupdate (session : Option Bool) : Option Cookies × List Action :=
  match session with
  | some true => (none, [])
  | some false => (some .jar, [Action.netLogin, Action.netLogin])
  | none => (some .jar, [Action.netLogin])

/-!
## Corruption tests (io.py lines 759-849)
-/

/-- Embeds `_is_fitsfile_bad_` (io.py:764): missing file reports `test_exist`;
otherwise try `fits.getdata` and report whether it failed. -/
def _is_fitsfile_bad_ (fs : FS) (filename : String) (test_exist : Bool) : Bool :=
  match fs.lookupFile filename with
  | none => test_exist
  | some fd => !fd.fitsOk

/-- Embeds `_is_textfile_bad_` (io.py:775): try a text read and report whether it
failed (a missing file also fails, since `open` raises). -/
def _is_textfile_bad_ (fs : FS) (filename : String) : Bool :=
  match fs.lookupFile filename with
  | none => true
  | some fd => !fd.textOk

/-- Body of `_test_file_` (io.py:784), generic over the remediation performed
in the corrupt-file branch (`_fileissue_` is invoked with the caller's
`erasebad/fromdl/redownload` arguments, abstracted here as `issue`).

Control flow of the source, for each of the `.fits` / `.txt` branches:
if the sidecar exists, do nothing and report good; otherwise attempt the
format-aware parse.  A `FileNotFoundError` is caught and logged (the file
reports good); any other parse failure triggers the remediation and reports
bad; a successful parse computes the hash (writing the sidecar only when
`write_hash` is set) and reports good.  Other extensions only log a warning
and report good. -/
def _test_file_core (fs : FS) (filename : String) (write_hash : Bool)
    (issue : FS → Except PyErr (FS × List Action)) :
    Except PyErr (Bool × FS × List Action) :=
  if strHasSub filename ".fits" then
    if hash_for_file_exists fs filename then .ok (true, fs, [])
    else
      match fs.lookupFile filename with
      | none => .ok (true, fs, [])
      | some fd =>
        if fd.fitsOk then
          if write_hash then
            match calculate_and_write_hash fs filename with
            | .error e => .error e
            | .ok fs' => .ok (true, fs', [.parsedFits filename, .hashedFile filename])
          else .ok (true, fs, [.parsedFits filename, .hashedFile filename])
        else
          match issue fs with
          | .error e => .error e
          | .ok (fs', tr) => .ok (false, fs', .parsedFits filename :: tr)
  else if strHasSub filename ".txt" then
    if hash_for_file_exists fs filename then .ok (true, fs, [])
    else
      match fs.lookupFile filename with
      | none => .ok (true, fs, [])
      | some fd =>
        if fd.textOk then
          if write_hash then
            match calculate_and_write_hash fs filename with
            | .error e => .error e
            | .ok fs' => .ok (true, fs', [.parsedText filename, .hashedFile filename])
          else .ok (true, fs, [.parsedText filename, .hashedFile filename])
        else
          match issue fs with
          | .error e => .error e
          | .ok (fs', tr) => .ok (false, fs', .parsedText filename :: tr)
  else .ok (true, fs, [])

/-- Embeds `_fileissue_` (io.py:824) as reached with `redownload=False` (this is how
`download_single_url`'s post-fetch check invokes it): when `erasebad` is set
the file is removed with `os.remove` — which raises `FileNotFoundError` when
the file is already absent — otherwise it is kept. -/
def _fileissue_nodl (fs : FS) (filename : String) (erasebad : Bool) :
    Except PyErr (FS × List Action) :=
  if erasebad then
    match os_remove fs filename with
    | .error e => .error e
    | .ok fs' => .ok (fs', [Action.removedFile filename])
  else .ok (fs, [])

/-- Embeds `_test_file_` (io.py:784) as invoked from `download_single_url`, where
`redownload` is left at its default `False`. -/
def _test_file_nodl (fs : FS) (filename : String) (erasebad write_hash : Bool) :
    Except PyErr (Bool × FS × List Action) :=
  _test_file_core fs filename write_hash
    (fun fs0 => _fileissue_nodl fs0 filename erasebad)

/-!
## The fetcher `download_single_url` (io.py:1050)
-/

/-- The pre-call rate-limiting pause (io.py:1072): with a non-None `wait`, the
call sleeps for `wait` seconds, or for a uniform random draw in `[0, wait]`
when `randomize_wait` is set; the realized draw is supplied as the oracle
`rand` (reduced into the admissible range). -/
def sleep_trace (wait : Option Nat) (randomize_wait : Bool) (rand : Nat) : List Action :=
  match wait with
  | none => []
  | some w => [Action.sleep (if randomize_wait then rand % (w + 1) else w)]

/-- The cache short-circuit condition (io.py:1076):
`fileout is not None and not overwrite and os.path.isfile(fileout)`. -/
def cache_skip (fs : FS) (fileout : Option String) (overwrite : Bool) : Bool :=
  match fileout with
  | some fo => !overwrite && fs.isfile fo
  | none => false

/-- The cutout query string appended to the url (io.py:1088):
`f"?center={radec[0]},{radec[1]}&size={cutout_size}arcsec&gzip=false"`. -/
def cutout_query (radec : Int × Int) (cutout_size : Nat) : String :=
  "?center=" ++ toString radec.1 ++ "," ++ toString radec.2 ++
    "&size=" ++ toString cutout_size ++ "arcsec&gzip=false"

/-- Decidable equality of Python results, needed to evaluate closed runs. -/
instance exceptDecEq {ε α : Type} [DecidableEq ε] [DecidableEq α] :
    DecidableEq (Except ε α) := fun a b =>
  match a, b with
  | .ok x, .ok y =>
    if h : x = y then .isTrue (by rw [h]) else .isFalse (by simp [h])
  | .error x, .error y =>
    if h : x = y then .isTrue (by rw [h]) else .isFalse (by simp [h])
  | .ok _, .error _ => .isFalse (by simp)
  | .error _, .ok _ => .isFalse (by simp)

/-- Result of `download_single_url`: the returned value (`none` for the
skip/written paths, which return Python `None`; `some (status, body)` for the
`fileout=None` path, which returns the response), the final filesystem, and
the trace of side effects. -/
structure DLOut where
  ret : Except PyErr (Option (Nat × FileData))
  fs : FS
  trace : List Action
deriving DecidableEq

/-- Embeds `download_single_url` (io.py:1050).  Steps, in source order: the optional
rate-limit sleep; the cache short-circuit (return `None` when `fileout` exists
and `overwrite` is false); the cutout handling (raise `ValueError` when
`cutouts` is set without `radec`, else extend the url with the region query);
cookie acquisition via `get_cookie` when no cookies were passed; then either
return the response directly (`fileout=None`) or stream-write the body to
`fileout` on HTTP 200 (nothing is written otherwise) and finally run the
post-fetch `_test_file_` when `filecheck` is set (with `fromdl=True` and
`redownload` at its default `False`).  The cookie values only authenticate the
request; they do not change which response the modelled archive serves, so
they are threaded for control flow only.  `show_progress` selects between two
write loops with identical observable behaviour and is not modelled. -/
def download_single_url (net : Net) (fs : FS) (rand : Nat) (url : String)
    (session : Option Bool) (cutouts : Bool) (radec : Option (Int × Int))
    (cutout_size : Nat) (fileout : Option String) (overwrite : Bool)
    (cookies : Option Cookies) (wait : Option Nat) (randomize_wait : Bool)
    (filecheck erasebad write_hash : Bool) : DLOut :=
  let trace0 := sleep_trace wait randomize_wait rand
  if cache_skip fs fileout overwrite then
    ⟨.ok none, fs, trace0⟩
  else if cutouts && radec.isNone then
    ⟨.error (.valueError "You selected to download cutouts only. Please provide the radec parameter. Default cutout_size: 30 arcsec"),
      fs, trace0⟩
  else
    let url2 := if cutouts then url ++ cutout_query (radec.getD (0, 0)) cutout_size else url
    let ctrace := if cookies.isNone then (get_cookie_noupdate session).2 else []
    match fileout with
    | none =>
      ⟨.ok (some (net.response url2)), fs, trace0 ++ ctrace ++ [Action.netRequest url2]⟩
    | some fo =>
      let r := net.response url2
      let fs1 := if r.1 = 200 then fs.setFile fo r.2 else fs
      let wtrace := if r.1 = 200
        then [Action.netRequest url2, Action.wroteFile fo]
        else [Action.netRequest url2]
      if filecheck then
        match _test_file_nodl fs1 fo erasebad write_hash with
        | .error e => ⟨.error e, fs1, trace0 ++ ctrace ++ wtrace⟩
        | .ok (_g, fs2, ttr) => ⟨.ok none, fs2, trace0 ++ ctrace ++ wtrace ++ ttr⟩
      else ⟨.ok none, fs1, trace0 ++ ctrace ++ wtrace⟩

/-!
## Remediation with redownload and the batch checker
-/

/-- Modelled from the spec: `buildurl._localsource_to_source_` is repository
code outside `src/` (the spec's NamingResolver, an external collaborator).
Per the spec it is the reverse mapping from a local cache path to
`(remote url, host name)`; local paths in the IRSA data trees (`/sci/`,
`/raw/`, `/ref/`, `/cal/`) map to an IRSA url, anything else resolves to no
url and no host. -/
def _localsource_to_source_ (filename : String) : Option String × Option String :=
  if strHasSub filename "/sci/" || strHasSub filename "/raw/" ||
      strHasSub filename "/ref/" || strHasSub filename "/cal/" then
    (some ("https://irsa.ipac.caltech.edu/ibe/data" ++ filename), some "irsa")
  else (none, none)

/-- Embeds `_fileissue_` (io.py:824), full version.  When `erasebad` is set the file
is deleted with `os.remove` (raising `FileNotFoundError` when already absent);
when `redownload` is set the local path is reverse-resolved and, if a url is
found, re-fetched by `download_single_url` with `overwrite=True` and cookies
freshly acquired from the credential store (a login request).  The inner fetch
uses the defaults: no wait, no cutout, `filecheck=True`, `erasebad=True`,
`write_hash=False`. -/
def _fileissue_ (net : Net) (fs : FS) (filename : String)
    (erasebad _fromdl redownload : Bool) : Except PyErr (FS × List Action) :=
  let step1 : Except PyErr (FS × List Action) :=
    if erasebad then
      match os_remove fs filename with
      | .error e => .error e
      | .ok fs' => .ok (fs', [Action.removedFile filename])
    else .ok (fs, [])
  match step1 with
  | .error e => .error e
  | .ok (fs1, tr1) =>
    if redownload then
      match _localsource_to_source_ filename with
      | (some url_to_dl, _loc) =>
        let out := download_single_url net fs1 0 url_to_dl none false none 30
          (some filename) true (some .jar) none true true true false
        match out.ret with
        | .error e => .error e
        | .ok _ => .ok (out.fs, tr1 ++ [Action.netLogin] ++ out.trace)
      | (none, _) => .ok (fs1, tr1)
    else .ok (fs1, tr1)

/-- Embeds `_test_file_` (io.py:784), full version: the corrupt-file branch runs
`_fileissue_` with the caller's `erasebad`, `fromdl` and `redownload`. -/
def _test_file_ (net : Net) (fs : FS) (filename : String)
    (erasebad fromdl redownload write_hash : Bool) :
    Except PyErr (Bool × FS × List Action) :=
  _test_file_core fs filename write_hash
    (fun fs0 => _fileissue_ net fs0 filename erasebad fromdl redownload)

/-- The sequential (`nprocess=1`) loop of `test_files` (io.py:687): the list
comprehension keeps, in input order, the files whose `_test_file_` (called
with `fromdl=False`) reports bad; the filesystem side effects of each check
are threaded through.  An exception in a check propagates. -/
def test_files_seq (net : Net) (fs : FS) (files : List String)
    (erasebad redownload write_hash : Bool) :
    Except PyErr (FS × List Action × List String) :=
  match files with
  | [] => .ok (fs, [], [])
  | f :: rest =>
    match _test_file_ net fs f erasebad false redownload write_hash with
    | .error e => .error e
    | .ok (isgood, fs1, tr1) =>
      match test_files_seq net fs1 rest erasebad redownload write_hash with
      | .error e => .error e
      | .ok (fs2, tr2, bad) =>
        .ok (fs2, tr1 ++ tr2, if isgood then bad else f :: bad)

/-- Result of `test_files`: the returned value together with the filesystem
and trace at the moment the function returns or raises. -/
structure TFOut where
  ret : Except PyErr (Option (List String))
  fs : FS
  trace : List Action
deriving DecidableEq

/-- Embeds `test_files` (io.py:645), sequential (`nprocess=1`) path.  After the
per-file loop, when at least one file failed: if `redownload` is set the
batch re-download block runs `download_url(..., session=session, ...)` where
`session` is an undefined name in that scope, so the call raises `NameError`
(after the per-file remediations already happened); otherwise the list of bad
files is returned.  When every file passed, the `return fileissue` statement
(io.py:750) sits inside `if len(fileissue) > 0:`, so the function returns
Python `None`, not the empty list. -/
def test_files (net : Net) (fs : FS) (files : List String)
    (erasebad redownload write_hash : Bool) : TFOut :=
  match test_files_seq net fs files erasebad redownload write_hash with
  | .error e => ⟨.error e, fs, []⟩
  | .ok (fs1, tr1, fileissue) =>
    if fileissue.length > 0 then
      if redownload then ⟨.error .nameError, fs1, tr1⟩
      else ⟨.ok (some fileissue), fs1, tr1⟩
    else ⟨.ok none, fs1, tr1⟩

/-- Embeds `get_localfiles` (io.py:557): recursive glob for
`startpath + "**/*." + extension` over the modelled filesystem — the stored
paths under `startpath` whose name ends in `"." + extension` (any dotted
extension for the default `"*"`). -/
def get_localfiles (fs : FS) (extension : String) (startpath : String) : List String :=
  ((fs.map Prod.fst).filter (fun p =>
    strStartsW p startpath &&
      (if extension = "*" then strHasSub p "." else strEndsW p ("." ++ extension)))).dedup

/-- Embeds `run_full_filecheck` (io.py:585): glob the local files and hand them to
`test_files`. -/
def run_full_filecheck (net : Net) (fs : FS) (extension startpath : String)
    (erasebad redownload write_hash : Bool) : TFOut :=
  test_files net fs (get_localfiles fs extension startpath)
    erasebad redownload write_hash

/-!
## The cache-presence decision of `get_file` (io.py:110-120)
-/

/-- The per-request download flags `flag_todl` computed by `get_file`
(io.py:110): with `overwrite` every request is marked; otherwise a request is
marked when the local file is absent, or when `test_file` is set, the name
contains `".fits"`, and `_is_fitsfile_bad_` (with its default
`test_exist=True`) reports it bad.  The resolution of request names to local
paths (`buildurl.filename_to_url`, an external collaborator) has already
happened: the input is the list of resolved local paths. -/
def get_file_flag_todl (fs : FS) (overwrite test_file : Bool)
    (local_filenames : List String) : List Bool :=
  if overwrite then local_filenames.map (fun _ => true)
  else local_filenames.map (fun f =>
    !fs.isfile f || (test_file && strHasSub f ".fits" && _is_fitsfile_bad_ fs f true))

/-!
## Claims
-/

/-- Claim C1: for every call to `download_single_url` whose destination file
exists on disk and whose `overwrite` is false, the call returns the skipped
outcome (Python `None`), the filesystem — in particular the destination's
content — is unchanged, and the trace (at most the rate-limit sleep) contains
no network access. -/
theorem C1_cache_short_circuit (net : Net) (fs : FS) (rand : Nat) (url : String)
    (session : Option Bool) (cutouts : Bool) (radec : Option (Int × Int))
    (cutout_size : Nat) (fo : String) (cookies : Option Cookies) (wait : Option Nat)
    (randomize_wait filecheck erasebad write_hash : Bool)
    (hfile : fs.isfile fo = true) :
    download_single_url net fs rand url session cutouts radec cutout_size
        (some fo) false cookies wait randomize_wait filecheck erasebad write_hash
      = ⟨.ok none, fs, sleep_trace wait randomize_wait rand⟩
    ∧ (sleep_trace wait randomize_wait rand).all (fun a => !a.isNet) = true := by
  constructor
  · simp [download_single_url, cache_skip, hfile]
  · cases wait <;> simp [sleep_trace, Action.isNet]

/-- Witness for C1 at a concrete input: the destination exists, so the fetch
returns skipped with no network access and an unchanged filesystem. -/
theorem C1_cache_short_circuit_witness :
    download_single_url [] [("/sci/a.fits", ⟨[7], true, true⟩)] 0 "u" none false
        none 30 (some "/sci/a.fits") false none (some 3) true true true false
      = ⟨.ok none, [("/sci/a.fits", ⟨[7], true, true⟩)], sleep_trace (some 3) true 0⟩
    ∧ (sleep_trace (some 3) true 0).all (fun a => !a.isNet) = true :=
  C1_cache_short_circuit [] [("/sci/a.fits", ⟨[7], true, true⟩)] 0 "u" none false
    none 30 "/sci/a.fits" none (some 3) true true true false (by decide)

/-- Claim C10: in `download_single_url` the rate-limit wait precedes the
cache-presence check, so a call with a non-None `wait` performs the full
(possibly randomized) sleep even when it is then skipped because the
destination exists and `overwrite` is false. -/
theorem C10_wait_before_cache_check (net : Net) (fs : FS) (rand : Nat)
    (url : String) (session : Option Bool) (cutouts : Bool)
    (radec : Option (Int × Int)) (cutout_size : Nat) (fo : String)
    (cookies : Option Cookies) (w : Nat)
    (randomize_wait filecheck erasebad write_hash : Bool)
    (hfile : fs.isfile fo = true) :
    download_single_url net fs rand url session cutouts radec cutout_size
        (some fo) false cookies (some w) randomize_wait filecheck erasebad write_hash
      = ⟨.ok none, fs, [Action.sleep (if randomize_wait then rand % (w + 1) else w)]⟩ := by
  simp [download_single_url, cache_skip, hfile, sleep_trace]

/-- Witness for C10 at a concrete input: the call is skipped, yet the trace
records the full randomized sleep. -/
theorem C10_wait_before_cache_check_witness :
    download_single_url [] [("/sci/a.fits", ⟨[7], true, true⟩)] 2 "u" none false
        none 30 (some "/sci/a.fits") false none (some 5) true true true false
      = ⟨.ok none, [("/sci/a.fits", ⟨[7], true, true⟩)], [Action.sleep 2]⟩ :=
  C10_wait_before_cache_check [] [("/sci/a.fits", ⟨[7], true, true⟩)] 2 "u" none
    false none 30 "/sci/a.fits" none 5 true true true false (by decide)

/-- Claim C2: the per-request download flag computed by `get_file` is true
exactly when `overwrite` is set, or the local file is absent, or `test_file`
is set, the name contains the recognized `".fits"` extension, and the present
file fails the lightweight integrity test; and for names without the
recognized extension the flag reduces to `overwrite` or absence — content
inspection never flags them. -/
theorem C2_cachedecider_policy (fs : FS) (overwrite test_file : Bool)
    (files : List String) :
    get_file_flag_todl fs overwrite test_file files
      = files.map (fun f =>
          overwrite || !fs.isfile f
            || (test_file && strHasSub f ".fits" &&
                  (fs.isfile f && _is_fitsfile_bad_ fs f true)))
    ∧ (∀ f : String, strHasSub f ".fits" = false →
        (overwrite || !fs.isfile f
          || (test_file && strHasSub f ".fits" &&
                (fs.isfile f && _is_fitsfile_bad_ fs f true)))
          = (overwrite || !fs.isfile f)) := by
  constructor
  · cases overwrite with
    | true => simp [get_file_flag_todl]
    | false =>
      simp only [get_file_flag_todl, if_neg, Bool.false_or, Bool.false_eq_true,
        not_false_eq_true]
      congr 1
      funext f
      cases hf : fs.isfile f <;> simp [hf]
  · intro f h
    simp [h]

/-- Witness for C2: discharging the hypothesis of the second conjunct on a
name without the recognized extension. -/
theorem C2_cachedecider_policy_witness :
    get_file_flag_todl [] false true ["a.dat"]
      = ["a.dat"].map (fun f =>
          false || !FS.isfile [] f
            || (true && strHasSub f ".fits" &&
                  (FS.isfile [] f && _is_fitsfile_bad_ [] f true)))
    ∧ (false || !FS.isfile [] "a.dat"
        || (true && strHasSub "a.dat" ".fits" &&
              (FS.isfile [] "a.dat" && _is_fitsfile_bad_ [] "a.dat" true)))
        = (false || !FS.isfile [] "a.dat") :=
  ⟨(C2_cachedecider_policy [] false true ["a.dat"]).1,
   (C2_cachedecider_policy [] false true ["a.dat"]).2 "a.dat" (by decide)⟩

/-- Claim C6: whenever the sidecar `path + ".md5"` exists, `_test_file_`
reports the file good, leaves the filesystem unchanged, and performs no parse
or hash computation (empty trace): the sidecar's presence alone is the
already-verified signal. -/
theorem C6_sidecar_presence_trusted (net : Net) (fs : FS) (filename : String)
    (erasebad fromdl redownload write_hash : Bool)
    (h : hash_for_file_exists fs filename = true) :
    _test_file_ net fs filename erasebad fromdl redownload write_hash
      = .ok (true, fs, []) := by
  unfold _test_file_ _test_file_core
  by_cases hf : strHasSub filename ".fits" = true <;>
    by_cases ht : strHasSub filename ".txt" = true <;>
      simp [hf, ht, h]

/-- Witness for C6: the stored file is corrupt (its parse would fail), yet the
sidecar's presence makes the check report it good without looking at it. -/
theorem C6_sidecar_presence_trusted_witness :
    _test_file_ [] [("a.fits", ⟨[0], false, false⟩), ("a.fits.md5", ⟨[3], false, true⟩)]
        "a.fits" true false false false
      = .ok (true, [("a.fits", ⟨[0], false, false⟩), ("a.fits.md5", ⟨[3], false, true⟩)], []) :=
  C6_sidecar_presence_trusted []
    [("a.fits", ⟨[0], false, false⟩), ("a.fits.md5", ⟨[3], false, true⟩)]
    "a.fits" true false false false (by decide)

/-- Claim C4 counterexample: with the erase policy selected and the local file
already absent, `_fileissue_` raises `FileNotFoundError` (from `os.remove`)
instead of completing without error. -/
theorem C4_erase_absent_raises :
    _fileissue_ [] [] "/sci/a.fits" true false false
      = .error PyErr.fileNotFoundError := by decide

/-- Claim C4 as amended: when the erase policy is selected the remediator
deletes the local file, but the deletion is not idempotent: invoked when the
file is already absent, it raises `FileNotFoundError` (before any redownload
is considered). -/
theorem C4_erase_deletes_but_not_idempotent (net : Net) (fs : FS)
    (filename : String) (fromdl : Bool) :
    (fs.isfile filename = true →
      _fileissue_ net fs filename true fromdl false
        = .ok (fs.removeFile filename, [Action.removedFile filename]))
    ∧ (fs.isfile filename = false → ∀ redownload : Bool,
      _fileissue_ net fs filename true fromdl redownload
        = .error PyErr.fileNotFoundError) := by
  constructor
  · intro h
    simp [_fileissue_, os_remove, h]
  · intro h redownload
    simp [_fileissue_, os_remove, h]

/-- Witness for C4's amended claim: a present file is deleted; an absent one
makes the remediator raise. -/
theorem C4_erase_deletes_but_not_idempotent_witness :
    _fileissue_ [] [("/sci/a.fits", ⟨[7], true, true⟩)] "/sci/a.fits" true false false
      = .ok (FS.removeFile [("/sci/a.fits", ⟨[7], true, true⟩)] "/sci/a.fits",
          [Action.removedFile "/sci/a.fits"])
    ∧ _fileissue_ [] [] "/sci/b.fits" true false true
      = .error PyErr.fileNotFoundError :=
  ⟨(C4_erase_deletes_but_not_idempotent [] [("/sci/a.fits", ⟨[7], true, true⟩)]
      "/sci/a.fits" false).1 (by decide),
   (C4_erase_deletes_but_not_idempotent [] [] "/sci/b.fits" false).2 (by decide) true⟩

/-- Claim C3 (code bug): recording a sidecar and then calling `compare_hash`
on the same file yields `NameError`, never `True` — `compare_hash` reads the
undefined name `hash_fname`.  The intended round-trip does hold one level
down: after `calculate_and_write_hash`, the digest stored in the sidecar
(`read_hash`) equals the recomputed digest (`calculate_hash`), and the digest
is a function of the byte content alone. -/
theorem C3_hash_roundtrip_bug :
    (∀ (fs : FS) (fname : String) (fs1 : FS),
        calculate_and_write_hash fs fname = .ok fs1 →
        compare_hash fs1 fname = .error PyErr.nameError)
    ∧ (∀ (fs : FS) (fname : String) (fs1 : FS),
        calculate_and_write_hash fs fname = .ok fs1 →
        read_hash fs1 fname = calculate_hash fs1 fname)
    ∧ (∀ (fs1 fs2 : FS) (f1 f2 : String) (d1 d2 : FileData),
        fs1.lookupFile f1 = some d1 → fs2.lookupFile f2 = some d2 →
        d1.bytes = d2.bytes → calculate_hash fs1 f1 = calculate_hash fs2 f2) := by
  refine ⟨fun fs fname fs1 _ => rfl, ?_, ?_⟩
  · intro fs fname fs1 h
    unfold calculate_and_write_hash at h
    cases hl : fs.lookupFile fname with
    | none => simp [calculate_hash, hl] at h
    | some fd =>
      simp only [calculate_hash, hl] at h
      have hfs1 : fs.setFile (fname ++ ".md5")
          ⟨md5_hexdigest (chunksOf 4096 fd.bytes).flatten, false, true⟩ = fs1 := by
        exact Except.ok.inj h
      have hside : fs1.lookupFile (fname ++ ".md5")
          = some ⟨md5_hexdigest (chunksOf 4096 fd.bytes).flatten, false, true⟩ := by
        rw [← hfs1]
        exact FS.lookupFile_setFile_self fs (fname ++ ".md5") _
      have hdata : fs1.lookupFile fname = some fd := by
        rw [← hfs1, FS.lookupFile_setFile_ne fs (fname ++ ".md5") fname _
          (Ne.symm (md5_suffix_ne fname))]
        exact hl
      rw [read_hash, hside, calculate_hash, hdata]
  · intro fs1 fs2 f1 f2 d1 d2 h1 h2 hb
    simp [calculate_hash, h1, h2, hb]

/-- Witness for C3: at a concrete file, the sidecar is recorded, the stored
and recomputed digests agree, byte-identical files hash identically — and yet
`compare_hash` returns `NameError`. -/
theorem C3_hash_roundtrip_bug_witness :
    compare_hash (FS.setFile [("a.fits", ⟨[1, 2, 3], true, true⟩)] ("a.fits" ++ ".md5")
        ⟨[34719, 3], false, true⟩) "a.fits" = .error PyErr.nameError
    ∧ read_hash (FS.setFile [("a.fits", ⟨[1, 2, 3], true, true⟩)] ("a.fits" ++ ".md5")
        ⟨[34719, 3], false, true⟩) "a.fits"
      = calculate_hash (FS.setFile [("a.fits", ⟨[1, 2, 3], true, true⟩)] ("a.fits" ++ ".md5")
        ⟨[34719, 3], false, true⟩) "a.fits"
    ∧ calculate_hash [("b.txt", ⟨[9], false, true⟩), ("c.txt", ⟨[9], false, true⟩)] "b.txt"
      = calculate_hash [("b.txt", ⟨[9], false, true⟩), ("c.txt", ⟨[9], false, true⟩)] "c.txt" :=
  ⟨C3_hash_roundtrip_bug.1 [("a.fits", ⟨[1, 2, 3], true, true⟩)] "a.fits" _ (by decide),
   C3_hash_roundtrip_bug.2.1 [("a.fits", ⟨[1, 2, 3], true, true⟩)] "a.fits" _ (by decide),
   C3_hash_roundtrip_bug.2.2 _ _ "b.txt" "c.txt" ⟨[9], false, true⟩ ⟨[9], false, true⟩
     (by decide) (by decide) rfl⟩

/-- Claim C7 counterexample: a call with `cutouts=true` and no `radec` whose
destination already exists (with `overwrite=false`) is cache-skipped before
the cutout check, so no `ValueError` is raised. -/
theorem C7_cutout_skip_counterexample :
    download_single_url [] [("/sci/a.fits", ⟨[7], true, true⟩)] 0 "u" none true
        none 30 (some "/sci/a.fits") false none none true true true false
      = ⟨.ok none, [("/sci/a.fits", ⟨[7], true, true⟩)], []⟩ := by decide

/-- Claim C7 as amended: for every fetch call with `cutouts=true` that is not
cache-skipped, `radec` is mandatory — its absence raises `ValueError` before
any network access (the trace holds at most the rate-limit sleep) — and when
`radec` is present, the request url carries the appended center coordinates
and size query string. -/
theorem C7_cutout_radec_required (net : Net) (fs : FS) (rand : Nat) (url : String)
    (session : Option Bool) (cutout_size : Nat) (fileout : Option String)
    (overwrite : Bool) (cookies : Option Cookies) (wait : Option Nat)
    (randomize_wait filecheck erasebad write_hash : Bool)
    (hskip : cache_skip fs fileout overwrite = false) :
    (download_single_url net fs rand url session true none cutout_size fileout
        overwrite cookies wait randomize_wait filecheck erasebad write_hash
      = ⟨.error (.valueError "You selected to download cutouts only. Please provide the radec parameter. Default cutout_size: 30 arcsec"),
          fs, sleep_trace wait randomize_wait rand⟩
      ∧ (sleep_trace wait randomize_wait rand).all (fun a => !a.isNet) = true)
    ∧ (∀ ra dec : Int,
        Action.netRequest (url ++ cutout_query (ra, dec) cutout_size)
          ∈ (download_single_url net fs rand url session true (some (ra, dec))
              cutout_size fileout overwrite cookies wait randomize_wait filecheck
              erasebad write_hash).trace) := by
  constructor
  · constructor
    · simp [download_single_url, hskip]
    · cases wait <;> simp [sleep_trace, Action.isNet]
  · intro ra dec
    unfold download_single_url
    simp only [hskip, Bool.false_eq_true, if_false, Option.isNone_some,
      Bool.and_false, Option.getD_some, if_true]
    cases fileout with
    | none => simp
    | some fo =>
      by_cases hr : (net.response (url ++ cutout_query (ra, dec) cutout_size)).1 = 200
      · by_cases hfc : filecheck = true
        · cases htf : _test_file_nodl
              (fs.setFile fo (net.response (url ++ cutout_query (ra, dec) cutout_size)).2)
              fo erasebad write_hash with
          | error e => simp [hr, hfc, htf, List.mem_append]
          | ok v =>
            obtain ⟨g, fs2, ttr⟩ := v
            simp [hr, hfc, htf, List.mem_append]
        · simp [hr, hfc, List.mem_append]
      · by_cases hfc : filecheck = true
        · cases htf : _test_file_nodl fs fo erasebad write_hash with
          | error e => simp [hr, hfc, htf, List.mem_append]
          | ok v =>
            obtain ⟨g, fs2, ttr⟩ := v
            simp [hr, hfc, htf, List.mem_append]
        · simp [hr, hfc, List.mem_append]

/-- Witness for C7's amended claim at a concrete non-skipped input: the
missing `radec` raises `ValueError` with no network access, and a present
`radec` puts the region query on the requested url. -/
theorem C7_cutout_radec_required_witness :
    (download_single_url [] [] 0 "u" none true none 30 (some "/sci/a.fits") false
        none none true true true false
      = ⟨.error (.valueError "You selected to download cutouts only. Please provide the radec parameter. Default cutout_size: 30 arcsec"),
          [], sleep_trace none true 0⟩
      ∧ (sleep_trace none true 0).all (fun a => !a.isNet) = true)
    ∧ Action.netRequest ("u" ++ cutout_query (1, 2) 30)
        ∈ (download_single_url [] [] 0 "u" none true (some (1, 2)) 30
            (some "/sci/a.fits") false none none true true true false).trace :=
  ⟨(C7_cutout_radec_required [] [] 0 "u" none 30 (some "/sci/a.fits") false none
      none true true true false (by decide)).1,
   (C7_cutout_radec_required [] [] 0 "u" none 30 (some "/sci/a.fits") false none
      none true true true false (by decide)).2 1 2⟩

/-- Claim C8 counterexample: a fresh fetch with the default options
(`write_hash=False`) writes the body to the destination and the post-fetch
check reports it good, but no sidecar exists afterwards at the deterministic
sidecar path. -/
theorem C8_default_fetch_no_sidecar :
    (download_single_url [("u", 200, ⟨[1, 2], true, true⟩)] [] 0 "u" none false
        none 30 (some "/sci/x.fits") false none none true true true false).fs.lookupFile
        "/sci/x.fits" = some ⟨[1, 2], true, true⟩
    ∧ (download_single_url [("u", 200, ⟨[1, 2], true, true⟩)] [] 0 "u" none false
        none 30 (some "/sci/x.fits") false none none true true true false).ret = .ok none
    ∧ hash_for_file_exists
        (download_single_url [("u", 200, ⟨[1, 2], true, true⟩)] [] 0 "u" none false
          none 30 (some "/sci/x.fits") false none none true true true false).fs
        "/sci/x.fits" = false := by decide

/-- Claim C8 as amended: after a successful fetch of a previously absent
`.fits` file, the body is written to the destination and the post-fetch check
reports it not corrupt; the sidecar holding the content digest is created at
`path + ".md5"` only when `write_hash=true` is passed — the default
(`write_hash=false`) computes the digest without persisting it, leaving no
sidecar. -/
theorem C8_fresh_fetch_sidecar_only_on_request (net : Net) (fs : FS) (rand : Nat)
    (url : String) (session : Option Bool) (cookies : Option Cookies) (fo : String)
    (body : FileData) (erasebad : Bool)
    (hresp : net.response url = (200, body))
    (hfo : fs.isfile fo = false)
    (hmd5 : fs.isfile (fo ++ ".md5") = false)
    (hfits : strHasSub fo ".fits" = true)
    (hok : body.fitsOk = true) :
    (_test_file_nodl (fs.setFile fo body) fo erasebad false
      = .ok (true, fs.setFile fo body, [.parsedFits fo, .hashedFile fo]))
    ∧ ((download_single_url net fs rand url session false none 30 (some fo) false
        cookies none true true erasebad false).ret = .ok none
      ∧ (download_single_url net fs rand url session false none 30 (some fo) false
          cookies none true true erasebad false).fs.lookupFile fo = some body
      ∧ hash_for_file_exists
          (download_single_url net fs rand url session false none 30 (some fo) false
            cookies none true true erasebad false).fs fo = false)
    ∧ ((download_single_url net fs rand url session false none 30 (some fo) false
        cookies none true true erasebad true).fs.lookupFile fo = some body
      ∧ (download_single_url net fs rand url session false none 30 (some fo) false
          cookies none true true erasebad true).fs.lookupFile (fo ++ ".md5")
        = some ⟨md5_hexdigest body.bytes, false, true⟩) := by
  have hskip : cache_skip fs (some fo) false = false := by
    simp [cache_skip, hfo]
  have hdata : (fs.setFile fo body).lookupFile fo = some body :=
    FS.lookupFile_setFile_self fs fo body
  have hside : hash_for_file_exists (fs.setFile fo body) fo = false := by
    unfold hash_for_file_exists FS.isfile
    rw [FS.lookupFile_setFile_ne fs fo (fo ++ ".md5") body (md5_suffix_ne fo)]
    unfold FS.isfile at hmd5
    exact hmd5
  have htest0 : _test_file_nodl (fs.setFile fo body) fo erasebad false
      = .ok (true, fs.setFile fo body, [.parsedFits fo, .hashedFile fo]) := by
    unfold _test_file_nodl _test_file_core
    simp [hfits, hside, hdata, hok]
  have htest1 : _test_file_nodl (fs.setFile fo body) fo erasebad true
      = .ok (true, (fs.setFile fo body).setFile (fo ++ ".md5")
          ⟨md5_hexdigest body.bytes, false, true⟩,
          [.parsedFits fo, .hashedFile fo]) := by
    unfold _test_file_nodl _test_file_core
    simp [hfits, hside, hdata, hok, calculate_and_write_hash, calculate_hash,
      chunksOf_flatten]
  refine ⟨htest0, ?_, ?_⟩
  · have hrun : download_single_url net fs rand url session false none 30 (some fo)
        false cookies none true true erasebad false
        = ⟨.ok none, fs.setFile fo body,
            [] ++ (if cookies.isNone then (get_cookie_noupdate session).2 else [])
              ++ [Action.netRequest url, Action.wroteFile fo]
              ++ [.parsedFits fo, .hashedFile fo]⟩ := by
      unfold download_single_url
      simp [hskip, sleep_trace, hresp, htest0]
    rw [hrun]
    exact ⟨rfl, hdata, hside⟩
  · have hrun : download_single_url net fs rand url session false none 30 (some fo)
        false cookies none true true erasebad true
        = ⟨.ok none, (fs.setFile fo body).setFile (fo ++ ".md5")
              ⟨md5_hexdigest body.bytes, false, true⟩,
            [] ++ (if cookies.isNone then (get_cookie_noupdate session).2 else [])
              ++ [Action.netRequest url, Action.wroteFile fo]
              ++ [.parsedFits fo, .hashedFile fo]⟩ := by
      unfold download_single_url
      simp [hskip, sleep_trace, hresp, htest1]
    rw [hrun]
    constructor
    · rw [FS.lookupFile_setFile_ne _ (fo ++ ".md5") fo _ (Ne.symm (md5_suffix_ne fo))]
      exact hdata
    · exact FS.lookupFile_setFile_self _ (fo ++ ".md5") _

/-- Witness for C8's amended claim at a concrete fresh fetch. -/
theorem C8_fresh_fetch_sidecar_only_on_request_witness :
    (_test_file_nodl (FS.setFile [] "/sci/x.fits" ⟨[1, 2], true, true⟩) "/sci/x.fits"
        true false
      = .ok (true, FS.setFile [] "/sci/x.fits" ⟨[1, 2], true, true⟩,
          [.parsedFits "/sci/x.fits", .hashedFile "/sci/x.fits"]))
    ∧ ((download_single_url [("u", 200, ⟨[1, 2], true, true⟩)] [] 0 "u" none false
        none 30 (some "/sci/x.fits") false none none true true true false).ret = .ok none
      ∧ (download_single_url [("u", 200, ⟨[1, 2], true, true⟩)] [] 0 "u" none false
          none 30 (some "/sci/x.fits") false none none true true true false).fs.lookupFile
          "/sci/x.fits" = some ⟨[1, 2], true, true⟩
      ∧ hash_for_file_exists
          (download_single_url [("u", 200, ⟨[1, 2], true, true⟩)] [] 0 "u" none false
            none 30 (some "/sci/x.fits") false none none true true true false).fs
          "/sci/x.fits" = false)
    ∧ ((download_single_url [("u", 200, ⟨[1, 2], true, true⟩)] [] 0 "u" none false
        none 30 (some "/sci/x.fits") false none none true true true true).fs.lookupFile
        "/sci/x.fits" = some ⟨[1, 2], true, true⟩
      ∧ (download_single_url [("u", 200, ⟨[1, 2], true, true⟩)] [] 0 "u" none false
          none 30 (some "/sci/x.fits") false none none true true true true).fs.lookupFile
          ("/sci/x.fits" ++ ".md5")
        = some ⟨md5_hexdigest [1, 2], false, true⟩) :=
  C8_fresh_fetch_sidecar_only_on_request [("u", 200, ⟨[1, 2], true, true⟩)] [] 0 "u"
    none none "/sci/x.fits" ⟨[1, 2], true, true⟩ true (by decide) (by decide)
    (by decide) (by decide) (by decide)

/-- Lemma: `_test_file_core` cannot raise provided the remediation cannot raise on a
present file: every raising path of the body is guarded by a successful
lookup of the file. -/
theorem _test_file_core_ok (fs : FS) (filename : String) (write_hash : Bool)
    (issue : FS → Except PyErr (FS × List Action))
    (hissue : fs.isfile filename = true → ∃ v, issue fs = .ok v) :
    ∃ v, _test_file_core fs filename write_hash issue = .ok v := by
  have hwrite : ∀ fd, fs.lookupFile filename = some fd →
      ∃ fs', calculate_and_write_hash fs filename = .ok fs' := by
    intro fd hl
    simp [calculate_and_write_hash, calculate_hash, hl]
  have hiss : ∀ fd, fs.lookupFile filename = some fd →
      ∃ v, issue fs = .ok v := by
    intro fd hl
    exact hissue (by simp [FS.isfile, hl])
  unfold _test_file_core
  by_cases hf : strHasSub filename ".fits" = true
  · simp only [hf, if_true]
    by_cases hs : hash_for_file_exists fs filename = true
    · simp [hs]
    · simp only [hs, Bool.false_eq_true, if_false]
      cases hl : fs.lookupFile filename with
      | none => exact ⟨_, rfl⟩
      | some fd =>
        by_cases hok : fd.fitsOk = true
        · cases hwh : write_hash with
          | false => simp [hok]
          | true =>
            obtain ⟨fs', hfs'⟩ := hwrite fd hl
            simp [hok, hfs']
        · obtain ⟨⟨fs', tr⟩, hv⟩ := hiss fd hl
          simp [hok, hv]
  · simp only [hf, Bool.false_eq_true, if_false]
    by_cases ht : strHasSub filename ".txt" = true
    · simp only [ht, if_true]
      by_cases hs : hash_for_file_exists fs filename = true
      · simp [hs]
      · simp only [hs, Bool.false_eq_true, if_false]
        cases hl : fs.lookupFile filename with
        | none => exact ⟨_, rfl⟩
        | some fd =>
          by_cases hok : fd.textOk = true
          · cases hwh : write_hash with
            | false => simp [hok]
            | true =>
              obtain ⟨fs', hfs'⟩ := hwrite fd hl
              simp [hok, hfs']
          · obtain ⟨⟨fs', tr⟩, hv⟩ := hiss fd hl
            simp [hok, hv]
    · simp [ht]

/-- With `redownload=False`, `_fileissue_` on a present file succeeds: the
only raising path, `os.remove` on an absent file, is ruled out. -/
theorem _fileissue_nodl_ok (net : Net) (fs : FS) (filename : String)
    (erasebad fromdl : Bool) (h : fs.isfile filename = true) :
    ∃ v, _fileissue_ net fs filename erasebad fromdl false = .ok v := by
  cases erasebad with
  | false => simp [_fileissue_]
  | true => simp [_fileissue_, os_remove, h]

/-- With `redownload=False`, `_test_file_` never raises. -/
theorem _test_file_nordl_ok (net : Net) (fs : FS) (filename : String)
    (erasebad fromdl write_hash : Bool) :
    ∃ v, _test_file_ net fs filename erasebad fromdl false write_hash = .ok v :=
  _test_file_core_ok fs filename write_hash _
    (fun h => _fileissue_nodl_ok net fs filename erasebad fromdl h)

/-- The sequential loop of `test_files` with `redownload=False` completes on
every input, and the collected bad files form a sublist of the input. -/
theorem test_files_seq_ok (net : Net) (fs : FS) (files : List String)
    (erasebad write_hash : Bool) :
    ∃ fs1 tr bad, test_files_seq net fs files erasebad false write_hash
        = .ok (fs1, tr, bad) ∧ bad.Sublist files := by
  induction files generalizing fs with
  | nil => exact ⟨fs, [], [], rfl, List.Sublist.refl []⟩
  | cons f rest ih =>
    obtain ⟨⟨g, fs1, tr1⟩, hv⟩ :=
      _test_file_nordl_ok net fs f erasebad false write_hash
    obtain ⟨fs2, tr2, bad, hseq, hsub⟩ := ih fs1
    cases g with
    | true =>
      exact ⟨fs2, tr1 ++ tr2, bad, by simp [test_files_seq, hv, hseq],
        hsub.cons f⟩
    | false =>
      exact ⟨fs2, tr1 ++ tr2, f :: bad, by simp [test_files_seq, hv, hseq],
        hsub.cons₂ f⟩

/-- Claim C9 counterexample: when every file passes, `test_files` returns
Python `None` (the `return fileissue` sits inside `if len(fileissue) > 0:`),
not the empty list the claim promises. -/
theorem C9_allgood_returns_none :
    (test_files [] [("a.fits", ⟨[1], true, true⟩)] ["a.fits"] true false false).ret
      = .ok none
    ∧ (test_files [] [("a.fits", ⟨[1], true, true⟩)] ["a.fits"] true false false).ret
      ≠ .ok (some []) := by decide

/-- Claim C9 as amended: with `redownload=false`, the batch check completes on
every list of files without aborting on failures: it returns the explicit
(ordered, duplicate-free relative to the input) sublist of failed items when
at least one file fails, and Python `None` — rather than the empty list —
when every file passes. -/
theorem C9_batch_result_shape (net : Net) (fs : FS) (files : List String)
    (erasebad write_hash : Bool) :
    ∃ fs1 tr bad, bad.Sublist files
      ∧ test_files_seq net fs files erasebad false write_hash = .ok (fs1, tr, bad)
      ∧ test_files net fs files erasebad false write_hash
          = ⟨.ok (if bad.isEmpty then none else some bad), fs1, tr⟩ := by
  obtain ⟨fs1, tr, bad, hseq, hsub⟩ :=
    test_files_seq_ok net fs files erasebad write_hash
  refine ⟨fs1, tr, bad, hsub, hseq, ?_⟩
  unfold test_files
  rw [hseq]
  cases bad with
  | nil => simp
  | cons b bs => simp

/-- Claim C5 (code bug), evaluated at the failing input: one on-disk corrupt
`.fits` file of a known host (under `/sci/`, reverse-resolving to an IRSA
url), no sidecar, `erasebad=true`, `redownload=true`.  The per-file
remediation does erase the file and dispatch a fresh download of the resolved
url (which restores a good copy, `overwrite=True`), but `test_files` then
raises `NameError` — its batch redownload block reads the undefined name
`session` — instead of returning the bad-file list. -/
theorem C5_redownload_raises_namerror :
    (test_files
        [("https://irsa.ipac.caltech.edu/ibe/data/sci/c.fits", 200, ⟨[1], true, true⟩)]
        [("/sci/c.fits", ⟨[0], false, false⟩)] ["/sci/c.fits"] true true false).ret
      = .error PyErr.nameError
    ∧ Action.removedFile "/sci/c.fits"
        ∈ (test_files
            [("https://irsa.ipac.caltech.edu/ibe/data/sci/c.fits", 200, ⟨[1], true, true⟩)]
            [("/sci/c.fits", ⟨[0], false, false⟩)] ["/sci/c.fits"] true true false).trace
    ∧ Action.netRequest "https://irsa.ipac.caltech.edu/ibe/data/sci/c.fits"
        ∈ (test_files
            [("https://irsa.ipac.caltech.edu/ibe/data/sci/c.fits", 200, ⟨[1], true, true⟩)]
            [("/sci/c.fits", ⟨[0], false, false⟩)] ["/sci/c.fits"] true true false).trace
    ∧ (test_files
        [("https://irsa.ipac.caltech.edu/ibe/data/sci/c.fits", 200, ⟨[1], true, true⟩)]
        [("/sci/c.fits", ⟨[0], false, false⟩)] ["/sci/c.fits"] true true false).fs.lookupFile
        "/sci/c.fits" = some ⟨[1], true, true⟩ := by decide

end Ztf
